import Mathlib

/-!
Verification development for the go-cee compiler front end (lexical scanner,
tokenizer layer and recursive-descent parser).

The Go sources are shallowly embedded:

- machine integers become Nat (the token-kind enumeration is a Nat iota);
- Go slices become List; Go maps become lookup functions built by the same
  loops as the source;
- fallible operations (Go error returns and panics) become Except values;
  a Go runtime panic from out-of-range array indexing is modelled by the
  dedicated error constructor IndexOutOfRange;
- every Go for-loop or recursive scan is embedded with an explicit fuel
  argument (structural recursion); fuel exhaustion is the dedicated error
  Fuel and is never reached when the fuel exceeds the remaining input,
  since every loop iteration of the source consumes input;
- the buffer cursor (Buffer plus Offset) is represented by the remaining
  buffer rest equal to Buffer drop Offset, while Offset itself is kept in
  the Position record exactly as the source increments it;
- PosRange bookkeeping on parser-built AST nodes is elided: no claim about
  the parser concerns positions, and the token-level positions that claims
  do concern (scanner layer) are embedded in full.
-/

namespace token

/-- Token kind enumeration from src/token/token.go (iota values). -/
def ILLEGAL : Nat := 0

def IDENT : Nat := 1

def LITERAL_BEGIN : Nat := 2

def INT : Nat := 3

def FLOAT : Nat := 4

def IMAG : Nat := 5

def CHAR : Nat := 6

def STRING : Nat := 7

def LITERAL_END : Nat := 8

def KEYWORD_BEGIN : Nat := 9

def OPERATOR_BEGIN : Nat := 10

def ADD : Nat := 11

def SUB : Nat := 12

def MUL : Nat := 13

def QUO : Nat := 14

def REM : Nat := 15

def AND : Nat := 16

def OR : Nat := 17

def XOR : Nat := 18

def SHL : Nat := 19

def SHR : Nat := 20

def AND_NOT : Nat := 21

def MEMBER_SELECT : Nat := 22

def LAND : Nat := 23

def LOR : Nat := 24

def EQL : Nat := 25

def NEQ : Nat := 26

def LEQ : Nat := 27

def GEQ : Nat := 28

def LSS : Nat := 29

def GTR : Nat := 30

def ASSIGN : Nat := 31

def ADD_ASSIGN : Nat := 32

def SUB_ASSIGN : Nat := 33

def MUL_ASSIGN : Nat := 34

def QUO_ASSIGN : Nat := 35

def REM_ASSIGN : Nat := 36

def AND_ASSIGN : Nat := 37

def OR_ASSIGN : Nat := 38

def XOR_ASSIGN : Nat := 39

def SHL_ASSIGN : Nat := 40

def SHR_ASSIGN : Nat := 41

def AND_NOT_ASSIGN : Nat := 42

def NOT : Nat := 43

def ELLIPSIS : Nat := 44

def INC : Nat := 45

def DEC : Nat := 46

def OPERATOR_END : Nat := 47

def BREAK : Nat := 48

def CASE : Nat := 49

def CHAN : Nat := 50

def CONST : Nat := 51

def CONTINUE : Nat := 52

def DEFAULT : Nat := 53

def DEFER : Nat := 54

def ELSE : Nat := 55

def FALLTHROUGH : Nat := 56

def FOR : Nat := 57

def FUNC : Nat := 58

def GO : Nat := 59

def GOTO : Nat := 60

def IF : Nat := 61

def IMPORT : Nat := 62

def TRAIT : Nat := 63

def MAP : Nat := 64

def PACKAGE : Nat := 65

def RANGE : Nat := 66

def RETURN : Nat := 67

def SWITCH : Nat := 68

def SELECT : Nat := 69

def STRUCT : Nat := 70

def TYPE : Nat := 71

def VAR : Nat := 72

def KEYWORD_END : Nat := 73

def DELIMITER_BEGIN : Nat := 74

def LPAREN : Nat := 75

def LBRACK : Nat := 76

def LBRACE : Nat := 77

def COMMA : Nat := 78

def RPAREN : Nat := 79

def RBRACK : Nat := 80

def RBRACE : Nat := 81

def SEMICOLON : Nat := 82

def COLON : Nat := 83

def NEWLINE : Nat := 84

def DELIMITER_END : Nat := 85

def token_end : Nat := 86

/-- The KeywordLiterals array of src/token/token.go as a total function;
indices without an entry hold the zero value, the empty string.  Note that
FALLTHROUGH (56) has no entry in the source array. -/
def KeywordLiterals (i : Nat) : String :=
  if i = ADD then "+"
  else if i = SUB then "-"
  else if i = MUL then "*"
  else if i = QUO then "/"
  else if i = REM then "%"
  else if i = AND then "&"
  else if i = OR then "|"
  else if i = XOR then "^"
  else if i = SHL then "<<"
  else if i = SHR then ">>"
  else if i = AND_NOT then "&^"
  else if i = ADD_ASSIGN then "+="
  else if i = SUB_ASSIGN then "-="
  else if i = MUL_ASSIGN then "*="
  else if i = QUO_ASSIGN then "/="
  else if i = REM_ASSIGN then "%="
  else if i = AND_ASSIGN then "&="
  else if i = OR_ASSIGN then "|="
  else if i = XOR_ASSIGN then "^="
  else if i = SHL_ASSIGN then "<<="
  else if i = SHR_ASSIGN then ">>="
  else if i = AND_NOT_ASSIGN then "&^="
  else if i = MEMBER_SELECT then "."
  else if i = LAND then "&&"
  else if i = LOR then "||"
  else if i = INC then "++"
  else if i = DEC then "--"
  else if i = EQL then "=="
  else if i = LSS then "<"
  else if i = GTR then ">"
  else if i = ASSIGN then "="
  else if i = NOT then "!"
  else if i = NEQ then "!="
  else if i = LEQ then "<="
  else if i = GEQ then ">="
  else if i = ELLIPSIS then "..."
  else if i = LPAREN then "("
  else if i = LBRACK then "["
  else if i = LBRACE then "\x7b"
  else if i = COMMA then ","
  else if i = RPAREN then ")"
  else if i = RBRACK then "]"
  else if i = RBRACE then "\x7d"
  else if i = SEMICOLON then ";"
  else if i = COLON then ":"
  else if i = NEWLINE then "\n"
  else if i = BREAK then "break"
  else if i = CASE then "case"
  else if i = CHAN then "chan"
  else if i = CONST then "const"
  else if i = CONTINUE then "continue"
  else if i = DEFAULT then "default"
  else if i = DEFER then "defer"
  else if i = ELSE then "else"
  else if i = FOR then "for"
  else if i = FUNC then "fun"
  else if i = GO then "go"
  else if i = GOTO then "goto"
  else if i = IF then "if"
  else if i = IMPORT then "import"
  else if i = TRAIT then "interface"
  else if i = MAP then "map"
  else if i = PACKAGE then "package"
  else if i = RANGE then "range"
  else if i = RETURN then "return"
  else if i = SWITCH then "switch"
  else if i = SELECT then "select"
  else if i = STRUCT then "struct"
  else if i = TYPE then "type"
  else if i = VAR then "var"
  else ""

/-- The KeywordEnums map as built by the init function of
src/token/token.go: the loop runs i from KEYWORD_BEGIN (9) to
KEYWORD_END - 1 (72) and maps KeywordLiterals at i back to i; a later
write to the same literal wins, exactly as for a Go map.  Delimiter
literals (indices 75 to 84, including the newline) are never inserted. -/
def KeywordEnums (s : String) : Option Nat :=
  (List.range' KEYWORD_BEGIN (KEYWORD_END - KEYWORD_BEGIN)).foldl
    (fun acc i => if KeywordLiterals i = s then some i else acc) none

/-- IsLiteralValue from src/token/token.go. -/
def IsLiteralValue (kind : Nat) : Bool :=
  decide (LITERAL_BEGIN < kind) && decide (kind < LITERAL_END)

/-- IsOperator from src/token/token.go line 241, transcribed verbatim:
both comparisons are against OPERATOR_BEGIN. -/
def IsOperator (kind : Nat) : Bool :=
  decide (OPERATOR_BEGIN < kind) && decide (kind < OPERATOR_BEGIN)

/-- The PrefixUnaryOperators keyed bool array (size token_end + 1; entries
MUL, AND, ADD true).  Indexing outside the array is a Go runtime panic,
modelled as none. -/
def PrefixUnaryOperators (kind : Nat) : Option Bool :=
  if kind ≤ token_end then some (kind == MUL || kind == AND || kind == ADD)
  else none

/-- The PostfixUnaryOperators keyed bool array (size token_end + 1; entries
INC, DEC true). -/
def PostfixUnaryOperators (kind : Nat) : Option Bool :=
  if kind ≤ token_end then some (kind == INC || kind == DEC)
  else none

/-- The BinaryOperators array of src/token/token.go lines 229 to 239.  The
composite literal has no keys, so it is a positional array of LENGTH 8
holding the values MUL, QUO, REM, ADD, SUB, SHL, SHR, token_end; indexing
it with a token kind of 8 or more is a Go runtime panic (none here). -/
def BinaryOperators (kind : Nat) : Option Nat :=
  [MUL, QUO, REM, ADD, SUB, SHL, SHR, token_end].get? kind

end token

namespace scanner

/-- Cursor position from src/scanner/scanner.go: character offset, line
and column, all zero-based. -/
structure Position where
  Offset : Nat
  Line : Nat
  Column : Nat
deriving DecidableEq, Repr

/-- Scanner error values from the scanner error definitions
(src/unnamed/part_002 and part_003): EOFError, UnknownOperatorError,
UnknownEscapeCharError, NonClosedQuoteError, FormatError.  The extra Fuel
constructor is the embedding's marker for exhausted loop fuel; it is never
produced when a loop is given more fuel than the remaining input, since
every loop iteration of the source consumes input. -/
inductive ScanError where
  | EOF (Pos : Position)
  | UnknownOperator (Pos : Position)
  | UnknownEscapeChar (Pos : Position) (ch : Char)
  | NonClosedQuote (Pos : Position)
  | Format (Pos : Position)
  | Fuel
deriving DecidableEq, Repr

/-- BufferScanner from src/scanner/scanner.go.  The Go fields Buffer and
Position.Offset are represented by the remaining buffer rest, equal to
Buffer drop Offset; pos.Offset is still incremented exactly as the source
does, and Lines collects the line snapshots appended by Move. -/
structure BufferScanner where
  pos : Position
  rest : List Char
  Lines : List (List Char)
deriving DecidableEq, Repr

/-- FetchLine from src/scanner/scanner.go: the buffer text from the cursor
up to (excluding) the next newline. -/
def FetchLine (bs : BufferScanner) : List Char :=
  bs.rest.takeWhile (fun c => c ≠ '\n')

/-- GetChar from src/scanner/scanner.go: the character at the cursor, or
EOFError at end of buffer. -/
def GetChar (bs : BufferScanner) : Except ScanError Char :=
  match bs.rest with
  | [] => .error (.EOF bs.pos)
  | ch :: _ => .ok ch

/-- Move from src/scanner/scanner.go lines 63 to 82: returns the current
char and advances the cursor; a newline zeroes Column, increments Line and
appends the completed line snapshot, any other char increments Column;
Offset is always incremented by one. -/
def Move (bs : BufferScanner) : Except ScanError (Char × BufferScanner) :=
  match bs.rest with
  | [] => .error (.EOF bs.pos)
  | ch :: rest1 =>
    if ch = '\n' then
      .ok (ch, { pos := ⟨bs.pos.Offset + 1, bs.pos.Line + 1, 0⟩,
                 rest := rest1,
                 Lines := bs.Lines ++ [FetchLine bs] })
    else
      .ok (ch, { pos := ⟨bs.pos.Offset + 1, bs.pos.Line, bs.pos.Column + 1⟩,
                 rest := rest1,
                 Lines := bs.Lines })

end scanner

namespace scanner

/-- Raw token kind constants of src/scanner/scanner.go (iota). -/
def WORD : Nat := 1

def INT : Nat := 2

def CHAR : Nat := 3

def STRING : Nat := 4

def MARKS : Nat := 5

def COMMENT : Nat := 6

/-- Hex digit as accepted by ParseUint with base 16 (both cases). -/
def isHexCharGo (c : Char) : Bool :=
  c.isDigit || ('a' ≤ c && c ≤ 'f') || ('A' ≤ c && c ≤ 'F')

/-- Numeric value of a hex digit. -/
def hexDigitVal (c : Char) : Nat :=
  if c.isDigit then c.toNat - 48
  else if 'a' ≤ c then c.toNat - 87
  else c.toNat - 55

/-- Model of strconv.ParseUint with base 16 and the given bit size: none
for an empty or non-hex string (ErrSyntax) and for a value needing more
than bitSize bits (ErrRange); the caller maps both to FormatError. -/
def ParseUintHex (lit : List Char) (bitSize : Nat) : Option Nat :=
  if lit.isEmpty || !(lit.all isHexCharGo) then none
  else
    let v := lit.foldl (fun a c => a * 16 + hexDigitVal c) 0
    if v < 2 ^ bitSize then some v else none

/-- Helper running Move runesN times, collecting the characters, exactly
as the loop of ScanUnicodeCharHex does. -/
def ScanMoveN : Nat → BufferScanner → Except ScanError (List Char × BufferScanner)
  | 0, s => .ok ([], s)
  | n + 1, s =>
    match Move s with
    | .error e => .error e
    | .ok (ch, s1) =>
      match ScanMoveN n s1 with
      | .error e => .error e
      | .ok (lit, s2) => .ok (ch :: lit, s2)

/-- ScanUnicodeCharHex from src/scanner/scanner.go lines 129 to 150: reads
runesN characters and parses them as hex; syntax and range failures both
become FormatError at the position after the read. -/
def ScanUnicodeCharHex (runesN : Nat) (s : BufferScanner) :
    Except ScanError (Char × BufferScanner) :=
  match ScanMoveN runesN s with
  | .error e => .error e
  | .ok (literal, s1) =>
    match ParseUintHex literal (runesN * 4) with
    | none => .error (.Format s1.pos)
    | some v => .ok (Char.ofNat v, s1)

/-- ScanEscapeChar from src/scanner/scanner.go lines 153 to 175.  The
source ignores the error of its first Move, so at end of buffer ch is the
zero rune and the default branch fires; UnknownEscapeCharError is built
with only the Char field, its Pos staying at the zero value. -/
def ScanEscapeChar (quote : Char) (s : BufferScanner) :
    Except ScanError (Char × BufferScanner) :=
  let moved := match Move s with
    | .error _ => (Char.ofNat 0, s)
    | .ok (ch, s1) => (ch, s1)
  let ch := moved.1
  let s1 := moved.2
  if ch = quote then .ok (quote, s1)
  else if ch = 'n' then .ok ('\n', s1)
  else if ch = 't' then .ok ('\t', s1)
  else if ch = 'r' then .ok ('\r', s1)
  else if ch = '\\' then .ok ('\\', s1)
  else if ch = 'x' then ScanUnicodeCharHex 2 s1
  else if ch = 'u' then ScanUnicodeCharHex 4 s1
  else if ch = 'U' then ScanUnicodeCharHex 8 s1
  else .error (.UnknownEscapeChar ⟨0, 0, 0⟩ ch)

/-- The for-loop of ScanQuotedString, with explicit fuel.  Every
iteration consumes at least one character (its Move), so fuel larger than
the remaining buffer is never exhausted. -/
def ScanQuotedStringLoop (quote : Char) (str : List Char) (s : BufferScanner) :
    Nat → Except ScanError (Nat × List Char × BufferScanner)
  | 0 => .error .Fuel
  | fuel + 1 =>
    match Move s with
    | .error e => .error e
    | .ok (ch, s1) =>
      if ch = '\\' then
        match ScanEscapeChar quote s1 with
        | .error e => .error e
        | .ok (c2, s2) => ScanQuotedStringLoop quote (str ++ [c2]) s2 fuel
      else if ch = quote then .ok (STRING, str, s1)
      else ScanQuotedStringLoop quote (str ++ [ch]) s1 fuel

/-- ScanQuotedString from src/scanner/scanner.go lines 177 to 200: skips
the opening quote (the source discards that first Move result entirely),
then loops decoding escapes until the closing quote; running out of buffer
surfaces the EOFError of Move, as the comment of the source warns. -/
def ScanQuotedString (quote : Char) (s : BufferScanner) :
    Except ScanError (Nat × List Char × BufferScanner) :=
  let s1 := match Move s with
    | .error _ => s
    | .ok (_, s2) => s2
  ScanQuotedStringLoop quote [] s1 (s1.rest.length + 1)

end scanner

/-- C8: the buffer cursor invariant of Move: advancing past a newline sets
Column to 0 and increments Line; advancing past any other character
increments Column (leaving Line unchanged); and Offset increases by
exactly one per character consumed.  Confirmed against Move of
src/scanner/scanner.go. -/
theorem C8_move_cursor_invariant
    (bs bs1 : scanner.BufferScanner) (ch : Char)
    (h : scanner.Move bs = .ok (ch, bs1)) :
    bs1.pos.Offset = bs.pos.Offset + 1 ∧
    (ch = '\n' → bs1.pos.Column = 0 ∧ bs1.pos.Line = bs.pos.Line + 1) ∧
    (ch ≠ '\n' → bs1.pos.Column = bs.pos.Column + 1 ∧ bs1.pos.Line = bs.pos.Line) := by
  cases hr : bs.rest with
  | nil => simp [scanner.Move, hr] at h
  | cons c rest1 =>
    by_cases hc : c = '\n'
    · subst hc
      simp [scanner.Move, hr] at h
      obtain ⟨hch, hbs⟩ := h
      subst hch
      subst hbs
      exact ⟨rfl, fun _ => ⟨rfl, rfl⟩, fun hne => absurd rfl hne⟩
    · simp [scanner.Move, hr, hc] at h
      obtain ⟨hch, hbs⟩ := h
      subst hch
      subst hbs
      exact ⟨rfl, fun hch2 => absurd hch2 hc, fun _ => ⟨rfl, rfl⟩⟩

/-- Witness for C8 at two concrete states: a newline step and an ordinary
character step. -/
theorem C8_move_cursor_invariant_witness :
    (scanner.Move ⟨⟨5, 1, 3⟩, ['\n', 'a'], []⟩ =
      .ok ('\n', ⟨⟨6, 2, 0⟩, ['a'], [[]]⟩) ∧
     (⟨⟨6, 2, 0⟩, ['a'], [[]]⟩ : scanner.BufferScanner).pos.Offset = 6) ∧
    ((⟨⟨6, 2, 0⟩, ['a'], [[]]⟩ : scanner.BufferScanner).pos.Line = 1 + 1 ∧
     (⟨⟨6, 2, 0⟩, ['a'], [[]]⟩ : scanner.BufferScanner).pos.Column = 0) := by
  have h : scanner.Move ⟨⟨5, 1, 3⟩, ['\n', 'a'], []⟩ =
      .ok ('\n', ⟨⟨6, 2, 0⟩, ['a'], [[]]⟩) := rfl
  have hinv := C8_move_cursor_invariant ⟨⟨5, 1, 3⟩, ['\n', 'a'], []⟩
    ⟨⟨6, 2, 0⟩, ['a'], [[]]⟩ '\n' h
  exact ⟨⟨h, hinv.1⟩, (hinv.2.1 rfl).2, (hinv.2.1 rfl).1⟩

/-- The cursor position after advancing past a list of characters,
following the Move rule: a newline bumps the line and zeroes the column,
any other character bumps the column, and the offset always advances by
one.  Applied to the whole remaining buffer it is the end-of-buffer
position. -/
def advancePos (p : scanner.Position) : List Char → scanner.Position
  | [] => p
  | c :: t =>
    advancePos (if c = '\n' then ⟨p.Offset + 1, p.Line + 1, 0⟩
                else ⟨p.Offset + 1, p.Line, p.Column + 1⟩) t

/-- Helper: the quoted-string loop ends in the EOFError of Move, at the
end-of-buffer position, whenever the remaining buffer contains neither
the quote character nor a backslash. -/
theorem scanner_quoted_loop_eof (tail : List Char) :
    ∀ (str : List Char) (s : scanner.BufferScanner) (fuel : Nat),
    s.rest = tail → (∀ c ∈ tail, c ≠ '"' ∧ c ≠ '\\') → tail.length < fuel →
    scanner.ScanQuotedStringLoop '"' str s fuel =
      .error (.EOF (advancePos s.pos tail)) := by
  induction tail with
  | nil =>
    intro str s fuel hrest _ hfuel
    cases fuel with
    | zero => omega
    | succ f => simp [scanner.ScanQuotedStringLoop, scanner.Move, hrest, advancePos]
  | cons c t ih =>
    intro str s fuel hrest hnc hfuel
    cases fuel with
    | zero => simp at hfuel
    | succ f =>
      obtain ⟨hcq, hcb⟩ := hnc c (List.mem_cons_self c t)
      have hmem := fun x hx => hnc x (List.mem_cons_of_mem c hx)
      by_cases hcn : c = '\n'
      · subst hcn
        have hmv : scanner.Move s = .ok ('\n',
            ⟨⟨s.pos.Offset + 1, s.pos.Line + 1, 0⟩, t,
             s.Lines ++ [scanner.FetchLine s]⟩) := by
          simp [scanner.Move, hrest]
        have hrec := ih (str ++ ['\n'])
          ⟨⟨s.pos.Offset + 1, s.pos.Line + 1, 0⟩, t, s.Lines ++ [scanner.FetchLine s]⟩
          f rfl hmem (by simpa using hfuel)
        simpa [scanner.ScanQuotedStringLoop, hmv, hcb, hcq, advancePos] using hrec
      · have hmv : scanner.Move s = .ok (c,
            ⟨⟨s.pos.Offset + 1, s.pos.Line, s.pos.Column + 1⟩, t, s.Lines⟩) := by
          simp [scanner.Move, hrest, hcn]
        have hrec := ih (str ++ [c])
          ⟨⟨s.pos.Offset + 1, s.pos.Line, s.pos.Column + 1⟩, t, s.Lines⟩
          f rfl hmem (by simpa using hfuel)
        simpa [scanner.ScanQuotedStringLoop, hmv, hcb, hcq, advancePos, hcn] using hrec

/-- C5 counterexample: on the buffer holding the four characters of a
quote followed by abc (an unterminated string literal), ScanQuotedString
fails with the EOFError of the cursor at end of buffer, which is not the
NonClosedQuote diagnostic at the opening quote that the claim asserts. -/
theorem C5_unterminated_string_eof_counterexample :
    scanner.ScanQuotedString '"' ⟨⟨0, 0, 0⟩, ['"', 'a', 'b', 'c'], []⟩ =
      .error (.EOF ⟨4, 0, 4⟩) ∧
    scanner.ScanError.EOF ⟨4, 0, 4⟩ ≠ scanner.ScanError.NonClosedQuote ⟨0, 0, 0⟩ := by
  exact ⟨rfl, by decide⟩

/-- C5 amended: scanning a string literal whose closing quote is missing
before end of buffer (and whose remainder contains no backslash) fails
with an EOF error carrying the end-of-buffer position, the position
reached by advancing the cursor past every remaining character; the
NonClosedQuoteError type defined beside the scanner is never produced by
this path. -/
theorem C5_unterminated_string_eof (s : scanner.BufferScanner) (tail : List Char)
    (hrest : s.rest = '"' :: tail)
    (hnc : ∀ c ∈ tail, c ≠ '"' ∧ c ≠ '\\') :
    scanner.ScanQuotedString '"' s =
      .error (.EOF (advancePos s.pos ('"' :: tail))) := by
  have hmv : scanner.Move s = .ok ('"',
      ⟨⟨s.pos.Offset + 1, s.pos.Line, s.pos.Column + 1⟩, tail, s.Lines⟩) := by
    simp [scanner.Move, hrest]
  have hloop := scanner_quoted_loop_eof tail []
    ⟨⟨s.pos.Offset + 1, s.pos.Line, s.pos.Column + 1⟩, tail, s.Lines⟩
    (tail.length + 1) rfl hnc (by simp)
  simp only [scanner.ScanQuotedString, hmv]
  simpa [advancePos] using hloop

/-- Witness for the amended C5 at the concrete buffer quote-x, whose
end-of-buffer position is offset 2, line 0, column 2. -/
theorem C5_unterminated_string_eof_witness :
    (∀ c ∈ (['x'] : List Char), c ≠ '"' ∧ c ≠ '\\') ∧
    scanner.ScanQuotedString '"' ⟨⟨0, 0, 0⟩, ['"', 'x'], []⟩ =
      .error (.EOF (advancePos ⟨0, 0, 0⟩ ('"' :: ['x']))) ∧
    advancePos ⟨0, 0, 0⟩ ('"' :: ['x']) = ⟨2, 0, 2⟩ :=
  ⟨by decide,
   C5_unterminated_string_eof ⟨⟨0, 0, 0⟩, ['"', 'x'], []⟩ ['x'] rfl (by decide),
   by decide⟩

namespace scanner2

/-- Numeric-base subkind constants of the second scanner draft in
src/unnamed/part_004 (iota). -/
def INT_HEX : Nat := 1

def INT_DEC : Nat := 2

def INT_OCT : Nat := 3

def INT_BIN : Nat := 4

/-- A hexadecimal digit in the usual sense (either case), used to state
the premise of the claim about the 0x prefix. -/
def hexDigitFull (c : Char) : Bool :=
  ('0' ≤ c && c ≤ '9') || ('a' ≤ c && c ≤ 'f') || ('A' ≤ c && c ≤ 'F')

/-- The for-loop of ScanWhile from src/unnamed/part_004 lines 659 to 680,
with explicit fuel: while the condition holds, the current character is
appended and the cursor moves; on exit an empty sequence is the
FormatError of the source. -/
def ScanWhileLoop (cond : scanner.BufferScanner → Bool) (seq : List Char)
    (s : scanner.BufferScanner) :
    Nat → Except scanner.ScanError (List Char × scanner.BufferScanner)
  | 0 => .error .Fuel
  | fuel + 1 =>
    if cond s then
      match scanner.GetChar s with
      | .error e => .error e
      | .ok ch =>
        match scanner.Move s with
        | .error e => .error e
        | .ok (_, s1) => ScanWhileLoop cond (seq ++ [ch]) s1 fuel
    else
      if seq.isEmpty then .error (.Format s.pos) else .ok (seq, s)

/-- ScanWhile from src/unnamed/part_004 lines 659 to 680. -/
def ScanWhile (cond : scanner.BufferScanner → Bool) (s : scanner.BufferScanner) :
    Except scanner.ScanError (List Char × scanner.BufferScanner) :=
  ScanWhileLoop cond [] s (s.rest.length + 1)

/-- The closure condition of ScanBinDigit (part_004 lines 682 to 691):
false at end of buffer, else the char is 0 or 1. -/
def binCond (s : scanner.BufferScanner) : Bool :=
  match scanner.GetChar s with
  | .error _ => false
  | .ok ch => ch == '0' || ch == '1'

/-- The closure condition of ScanOctDigit (part_004 lines 693 to 702). -/
def octCond (s : scanner.BufferScanner) : Bool :=
  match scanner.GetChar s with
  | .error _ => false
  | .ok ch => '0' ≤ ch && ch ≤ '7'

/-- The closure condition of ScanHexDigit (part_004 lines 704 to 713);
note the source accepts only lowercase hex letters. -/
def hexCond (s : scanner.BufferScanner) : Bool :=
  match scanner.GetChar s with
  | .error _ => false
  | .ok ch => ('0' ≤ ch && ch ≤ '9') || ('a' ≤ ch && ch ≤ 'f')

/-- ScanBinDigit from src/unnamed/part_004. -/
def ScanBinDigit (s : scanner.BufferScanner) :
    Except scanner.ScanError (List Char × scanner.BufferScanner) :=
  ScanWhile binCond s

/-- ScanOctDigit from src/unnamed/part_004. -/
def ScanOctDigit (s : scanner.BufferScanner) :
    Except scanner.ScanError (List Char × scanner.BufferScanner) :=
  ScanWhile octCond s

/-- ScanHexDigit from src/unnamed/part_004. -/
def ScanHexDigit (s : scanner.BufferScanner) :
    Except scanner.ScanError (List Char × scanner.BufferScanner) :=
  ScanWhile hexCond s

/-- The decimal for-loop of ScanDigit (part_004 lines 742 to 748).  Its
condition reads the OUTER ch variable: the short variable declaration
inside the loop body shadows it, so the condition never changes and the
loop runs until Move fails at end of buffer. -/
def ScanDigitLoop (ch0 : Char) (digits : List Char) (s : scanner.BufferScanner) :
    Nat → Except scanner.ScanError (Nat × List Char × scanner.BufferScanner)
  | 0 => .error .Fuel
  | fuel + 1 =>
    if ch0.isDigit then
      match scanner.Move s with
      | .error e => .error e
      | .ok (ch, s1) => ScanDigitLoop ch0 (digits ++ [ch]) s1 fuel
    else .ok (0, digits, s)

/-- ScanDigit from src/unnamed/part_004 lines 715 to 751: consumes the
first digit; a leading 0 demands a following x, o or b (selecting the
base scanner) and otherwise fails: end of buffer surfaces the EOFError of
Move, any other following character is a FormatError.  A nonzero leading
digit enters the decimal loop. -/
def ScanDigit (s : scanner.BufferScanner) :
    Except scanner.ScanError (Nat × List Char × scanner.BufferScanner) :=
  match scanner.Move s with
  | .error e => .error e
  | .ok (ch, s1) =>
    let digits := [ch]
    if ch = '0' then
      match scanner.Move s1 with
      | .error e => .error e
      | .ok (ch2, s2) =>
        if ch2 = 'x' then
          match ScanHexDigit s2 with
          | .error e => .error e
          | .ok (lit, s3) => .ok (INT_HEX, lit, s3)
        else if ch2 = 'o' then
          match ScanOctDigit s2 with
          | .error e => .error e
          | .ok (lit, s3) => .ok (INT_OCT, lit, s3)
        else if ch2 = 'b' then
          match ScanBinDigit s2 with
          | .error e => .error e
          | .ok (lit, s3) => .ok (INT_BIN, lit, s3)
        else .error (.Format s2.pos)
    else ScanDigitLoop ch digits s1 (s1.rest.length + 1)

end scanner2

/-- Helper: Move on a state whose buffer starts with a non-newline
character, with the successor state spelled out. -/
theorem scanner_Move_cons_pos (bs : scanner.BufferScanner) (c : Char) (t : List Char)
    (h : bs.rest = c :: t) (hc : c ≠ '\n') :
    scanner.Move bs =
      .ok (c, ⟨⟨bs.pos.Offset + 1, bs.pos.Line, bs.pos.Column + 1⟩, t, bs.Lines⟩) := by
  simp [scanner.Move, h, hc]

/-- C6: the claim is right and the code is wrong.  The spec makes an
isolated 0 a valid decimal literal, but ScanDigit of the draft demands x,
o or b after a 0: at end of buffer it fails with the EOFError of Move, and
before any other character (here a semicolon) it fails with FormatError. -/
theorem C6_isolated_zero_fails :
    scanner2.ScanDigit ⟨⟨0, 0, 0⟩, ['0'], []⟩ = .error (.EOF ⟨1, 0, 1⟩) ∧
    scanner2.ScanDigit ⟨⟨0, 0, 0⟩, ['0', ';'], []⟩ = .error (.Format ⟨2, 0, 2⟩) :=
  ⟨rfl, rfl⟩

/-- C7: a numeric literal starting 0x with no hexadecimal digit after the
prefix fails with a FormatError (from the empty sequence of ScanWhile),
at the position just after the prefix.  Confirmed against ScanDigit and
ScanWhile of src/unnamed/part_004. -/
theorem C7_hex_prefix_without_digit_is_format_error
    (s : scanner.BufferScanner) (t : List Char)
    (hrest : s.rest = '0' :: 'x' :: t)
    (hnd : ∀ c, t.head? = some c → scanner2.hexDigitFull c = false) :
    scanner2.ScanDigit s =
      .error (.Format ⟨s.pos.Offset + 2, s.pos.Line, s.pos.Column + 2⟩) := by
  have h0 := scanner_Move_cons_pos s '0' ('x' :: t) hrest (by decide)
  have hx := scanner_Move_cons_pos
    ⟨⟨s.pos.Offset + 1, s.pos.Line, s.pos.Column + 1⟩, 'x' :: t, s.Lines⟩ 'x' t rfl (by decide)
  have hcond : scanner2.hexCond
      ⟨⟨s.pos.Offset + 2, s.pos.Line, s.pos.Column + 2⟩, t, s.Lines⟩ = false := by
    cases t with
    | nil => simp [scanner2.hexCond, scanner.GetChar]
    | cons c t2 =>
      have := hnd c rfl
      simp only [scanner2.hexDigitFull, Bool.or_eq_false_iff] at this
      simp [scanner2.hexCond, scanner.GetChar, this.1.1, this.1.2]
  simp [scanner2.ScanDigit, h0, hx, scanner2.ScanHexDigit, scanner2.ScanWhile,
    scanner2.ScanWhileLoop, hcond]

/-- Witness for C7 at the concrete buffer 0x followed by a semicolon. -/
theorem C7_hex_prefix_without_digit_is_format_error_witness :
    (∀ c, ([';'] : List Char).head? = some c → scanner2.hexDigitFull c = false) ∧
    scanner2.ScanDigit ⟨⟨0, 0, 0⟩, ['0', 'x', ';'], []⟩ = .error (.Format ⟨2, 0, 2⟩) :=
  ⟨by decide,
   C7_hex_prefix_without_digit_is_format_error ⟨⟨0, 0, 0⟩, ['0', 'x', ';'], []⟩ [';']
     rfl (by decide)⟩

namespace tokenizer

/-- A raw token from the underlying scanner layer: its raw kind constant
and its literal. -/
structure RawToken where
  kind : Nat
  lit : String
deriving DecidableEq, Repr

/-- A token of the tokenizer layer: ast.Token with the PosRange elided. -/
structure Tok where
  Kind : Nat
  Literal : String
deriving DecidableEq, Repr

/-- Failures of the tokenizer layer: the EOFError of the underlying
scanner at end of input, the UnknownOperatorError panic (carrying the
token it is built from), and the impossible-kind panic (which also covers
the runtime panic of indexing the keyed kind array out of range). -/
inductive TokError where
  | EOF
  | UnknownOperator (kind : Nat) (lit : String)
  | Impossible
deriving DecidableEq, Repr

/-- The keyword promotion of the WORD case of ScanToken
(src/parser/scanner.go lines 34 to 39): a hit in KeywordEnums rewrites
the kind, a miss leaves it IDENT. -/
def promoteWordKind (lit : String) : Nat :=
  match token.KeywordEnums lit with
  | some k => k
  | none => token.IDENT

/-- The case list of the semicolon auto complete switch of ScanToken
(src/parser/scanner.go lines 62 to 74): the previous-token kinds under
which a newline becomes a semicolon.  The literal kinds INT, FLOAT, CHAR
and STRING are not cases of the switch. -/
def asiTriggers (prevKind : Nat) : Bool :=
  prevKind == token.IDENT || prevKind == token.RBRACE || prevKind == token.RBRACK ||
  prevKind == token.RPAREN || prevKind == token.BREAK || prevKind == token.CONTINUE ||
  prevKind == token.RETURN || prevKind == token.INC || prevKind == token.DEC

/-- ScanToken of the tokenizer layer (src/parser/scanner.go lines 27 to
109) over a pre-scanned list of raw tokens; prev is s.Token.Kind, the
kind of the most recently emitted token.  WORD lexemes undergo keyword
promotion; MARKS lexemes resolve through KeywordEnums, a miss being the
UnknownOperatorError panic and a NEWLINE resolution running the semicolon
auto complete switch; COMMENT recurses; the remaining kinds map through
the keyed literal-kind array, zero being the impossible panic. -/
def ScanToken (prev : Nat) : List RawToken → Except TokError (Tok × List RawToken)
  | [] => .error .EOF
  | rt :: rest =>
    if rt.kind = scanner.WORD then
      .ok (⟨promoteWordKind rt.lit, rt.lit⟩, rest)
    else if rt.kind = scanner.MARKS then
      match token.KeywordEnums rt.lit with
      | none => .error (.UnknownOperator rt.kind rt.lit)
      | some k =>
        if k = token.NEWLINE then
          if asiTriggers prev then .ok (⟨token.SEMICOLON, ";"⟩, rest)
          else ScanToken prev rest
        else .ok (⟨k, rt.lit⟩, rest)
    else if rt.kind = scanner.COMMENT then
      ScanToken prev rest
    else
      let mapped :=
        if rt.kind = scanner.INT then token.INT
        else if rt.kind = scanner.CHAR then token.CHAR
        else if rt.kind = scanner.STRING then token.STRING
        else 0
      if mapped = 0 then .error .Impossible
      else .ok (⟨mapped, rt.lit⟩, rest)

end tokenizer

/-- C1: evaluating the tokenizer at the failing input.  A newline reaches
the tokenizer as a MARKS raw token with literal newline; KeywordEnums is
built by init only for indices KEYWORD_BEGIN up to KEYWORD_END, so the
newline literal is absent from it and the MARKS case panics with
UnknownOperatorError, even when the previous token kind IDENT is in the
trigger set the claim lists: no SEMICOLON is inserted and the newline is
not discarded.  The trigger switch itself also omits the literal kinds
the claim includes, as the last conjunct shows for INT. -/
theorem C1_newline_panics_as_unknown_operator :
    tokenizer.ScanToken token.IDENT [⟨scanner.MARKS, "\n"⟩] =
      .error (.UnknownOperator scanner.MARKS "\n") ∧
    token.KeywordEnums "\n" = none ∧
    token.KeywordEnums "\n" ≠ some token.NEWLINE ∧
    tokenizer.asiTriggers token.INT = false := by
  refine ⟨rfl, rfl, ?_, rfl⟩
  decide

/-- The word lexemes the scanner can produce: nonempty, made of letters,
digits and underscores (any character beyond ASCII is conservatively
allowed as a letter, matching the Unicode classes of the source). -/
def WordLexeme (s : String) : Bool :=
  !s.isEmpty && s.data.all (fun c => c.isAlphanum || c == '_' || decide (c.toNat ≥ 128))

/-- The keyword spelling table of the amended C9: the 24 spellings that
KeywordLiterals actually carries for the keyword range, paired with their
kinds.  Relative to the claim, fallthrough (armed with no spelling in the
source array) and val (no such kind exists) are absent. -/
def KeywordSpellings24 : List (String × Nat) :=
  [("break", token.BREAK), ("case", token.CASE), ("chan", token.CHAN),
   ("const", token.CONST), ("continue", token.CONTINUE), ("default", token.DEFAULT),
   ("defer", token.DEFER), ("else", token.ELSE), ("for", token.FOR),
   ("fun", token.FUNC), ("go", token.GO), ("goto", token.GOTO),
   ("if", token.IF), ("import", token.IMPORT), ("interface", token.TRAIT),
   ("map", token.MAP), ("package", token.PACKAGE), ("range", token.RANGE),
   ("return", token.RETURN), ("switch", token.SWITCH), ("select", token.SELECT),
   ("struct", token.STRUCT), ("type", token.TYPE), ("var", token.VAR)]

/-- The spellings of the amended table. -/
def KeywordStrings24 : List String := KeywordSpellings24.map Prod.fst

/-- The literals the init loop feeds into KeywordEnums. -/
def MappedLiterals : List String :=
  (List.range' token.KEYWORD_BEGIN (token.KEYWORD_END - token.KEYWORD_BEGIN)).map
    token.KeywordLiterals

/-- Helper: a successful KeywordEnums lookup means the looked-up string
is one of the literals the init loop visited. -/
theorem keywordEnums_foldl_domain (s : String) :
    ∀ (l : List Nat) (acc : Option Nat) (k : Nat),
    l.foldl (fun acc i => if token.KeywordLiterals i = s then some i else acc) acc = some k →
    acc = some k ∨ ∃ i ∈ l, token.KeywordLiterals i = s := by
  intro l
  induction l with
  | nil => intro acc k h; exact .inl h
  | cons i t ih =>
    intro acc k h
    rcases ih _ k h with hacc | ⟨j, hj, hjs⟩
    · by_cases hp : token.KeywordLiterals i = s
      · exact .inr ⟨i, List.mem_cons_self i t, hp⟩
      · simp [hp] at hacc
        exact .inl hacc
    · exact .inr ⟨j, List.mem_cons_of_mem i hj, hjs⟩

/-- Helper: looking up a key absent from an association list gives none. -/
theorem lookup_none_of_not_mem_keys (l : List (String × Nat)) (a : String)
    (h : ∀ p ∈ l, p.1 ≠ a) : l.lookup a = none := by
  induction l with
  | nil => rfl
  | cons p t ih =>
    have hp : ¬(a == p.1) = true := by
      intro hb
      exact h p (List.mem_cons_self p t) (beq_iff_eq.mp hb).symm
    simp only [List.lookup, Bool.not_eq_true] at hp ⊢
    rw [hp]
    exact ih (fun q hq => h q (List.mem_cons_of_mem p hq))

/-- C9 counterexample: the claim lists fallthrough and val among the
promoted spellings, but the word lexeme fallthrough keeps the kind IDENT
(the source array carries no spelling for the FALLTHROUGH kind), and val
is absent from the keyword table altogether (no VAL kind exists). -/
theorem C9_fallthrough_val_not_promoted_counterexample :
    tokenizer.promoteWordKind "fallthrough" = token.IDENT ∧
    token.IDENT ≠ token.FALLTHROUGH ∧
    token.KeywordLiterals token.FALLTHROUGH = "" ∧
    token.KeywordEnums "val" = none := by
  refine ⟨rfl, by decide, rfl, rfl⟩

/-- C9 amended: a word lexeme is promoted to a keyword kind exactly when
its literal is one of the 24 spellings break, case, chan, const,
continue, default, defer, else, for, fun, go, goto, if, import,
interface, map, package, range, return, switch, select, struct, type,
var, each going to its kind; every other word lexeme keeps the kind
IDENT.  In particular fallthrough and val, which the claim also lists,
are never promoted. -/
theorem C9_keyword_promotion_exactly_24 (s : String) (hw : WordLexeme s = true) :
    tokenizer.promoteWordKind s = (KeywordSpellings24.lookup s).getD token.IDENT := by
  by_cases hmem : s ∈ KeywordStrings24
  · have hall : KeywordStrings24.all
        (fun t => tokenizer.promoteWordKind t ==
          (KeywordSpellings24.lookup t).getD token.IDENT) = true := by decide
    exact beq_iff_eq.mp (List.all_eq_true.mp hall s hmem)
  · have hlook : KeywordSpellings24.lookup s = none := by
      refine lookup_none_of_not_mem_keys _ _ ?_
      intro p hp hps
      exact hmem (hps ▸ List.mem_map_of_mem Prod.fst hp)
    have henum : token.KeywordEnums s = none := by
      cases he : token.KeywordEnums s with
      | none => rfl
      | some k =>
        rcases keywordEnums_foldl_domain s _ none k he with h0 | ⟨i, hi, his⟩
        · exact Option.noConfusion h0
        · have hmm : s ∈ MappedLiterals :=
            his ▸ List.mem_map_of_mem token.KeywordLiterals hi
          have hc : KeywordStrings24.contains s = false := by
            by_contra hcc
            rw [Bool.not_eq_false] at hcc
            exact hmem (List.elem_iff.mp hcc)
          have hfilter : s ∈ MappedLiterals.filter
              (fun t => WordLexeme t && !(KeywordStrings24.contains t)) :=
            List.mem_filter.mpr ⟨hmm, by rw [hw, hc]; rfl⟩
          have hfempty : MappedLiterals.filter
              (fun t => WordLexeme t && !(KeywordStrings24.contains t)) = [] := by decide
          rw [hfempty] at hfilter
          exact absurd hfilter (List.not_mem_nil s)
    simp [tokenizer.promoteWordKind, henum, hlook]

/-- Witness for the amended C9 at the keyword break and at the plain
identifier abc. -/
theorem C9_keyword_promotion_exactly_24_witness :
    (WordLexeme "break" = true ∧
      tokenizer.promoteWordKind "break" = (KeywordSpellings24.lookup "break").getD token.IDENT) ∧
    (WordLexeme "abc" = true ∧
      tokenizer.promoteWordKind "abc" = (KeywordSpellings24.lookup "abc").getD token.IDENT) :=
  ⟨⟨by decide, C9_keyword_promotion_exactly_24 "break" (by decide)⟩,
   ⟨by decide, C9_keyword_promotion_exactly_24 "abc" (by decide)⟩⟩

namespace stack

/-- Pop from src/stack/stack.go lines 7 to 9, transcribed as written: it
reslices arr to length len(arr) minus 2, removing TWO elements; on a
slice of fewer than two elements the reslice bound is negative, a Go
runtime panic (none). -/
def Pop {T : Type} (arr : List T) : Option (List T) :=
  if arr.length < 2 then none else some (arr.take (arr.length - 2))

/-- Top from src/stack/stack.go lines 11 to 13: the last element; on an
empty slice the index is a Go runtime panic (none). -/
def Top {T : Type} (arr : List T) : Option T :=
  arr.getLast?

end stack

namespace parser1

/-- The delimiter handling of Scan from the first parser draft
(src/parser/parser.go lines 71 to 87): an opening brace, paren or bracket
appends its matching closer to QuoteStack; a closing brace, paren or
bracket calls stack.Pop on it (the three cases fall through to the same
Pop); every other kind leaves the stack alone.  none propagates the Go
runtime panic inside stack.Pop. -/
def ScanQuoteStackUpdate (QuoteStack : List Nat) (kind : Nat) : Option (List Nat) :=
  if kind = token.LBRACE then some (QuoteStack ++ [token.RBRACE])
  else if kind = token.LPAREN then some (QuoteStack ++ [token.RPAREN])
  else if kind = token.LBRACK then some (QuoteStack ++ [token.RBRACK])
  else if kind = token.RBRACE ∨ kind = token.RPAREN ∨ kind = token.RBRACK then
    stack.Pop QuoteStack
  else some QuoteStack

end parser1

/-- C2: evaluating the bracket stack at the failing input.  An opening
paren does push exactly the matching closer, but the matching closer then
calls stack.Pop, which removes TWO entries, not one: on the one-entry
stack left by the input of one paren pair the reslice panics (none), and
on a two-entry stack a single closer empties it.  Top, by contrast, reads
exactly one element, so the bracket stack can never behave as the claim
states and balanced input crashes the parser. -/
theorem C2_closer_pops_two_entries :
    parser1.ScanQuoteStackUpdate [] token.LPAREN = some [token.RPAREN] ∧
    parser1.ScanQuoteStackUpdate [token.RPAREN] token.RPAREN = none ∧
    parser1.ScanQuoteStackUpdate [token.RBRACK, token.RPAREN] token.RPAREN = some [] ∧
    stack.Top [token.RBRACK, token.RPAREN] = some token.RPAREN := by
  refine ⟨by decide, by decide, by decide, by decide⟩

namespace ast

/-- A token as the parser layer sees it: kind and literal (the PosRange
of src/ast/node.go is elided as described in the file header). -/
structure Token where
  Kind : Nat
  Literal : String
deriving DecidableEq, Repr

mutual

/-- The Type category of src/ast/node.go (first draft, lines 67 to 91):
StructType, TraitType, TypeAlias and FuncType, the latter with its params
and results inlined. -/
inductive Typ : Type where
  | StructType (Fields : List GenDecl) : Typ
  | TraitType : Typ
  | TypeAlias (Ident : Token) : Typ
  | FuncType (Params : List GenDecl) (Results : List Typ) : Typ

/-- GenDecl from src/ast/node.go: an identifier list and a shared type. -/
inductive GenDecl : Type where
  | mk (Idents : List Token) (type : Typ) : GenDecl

/-- The Expr category of src/ast/node.go (first draft, lines 93 to 166).
MemberSelectExpr carries ONLY the member identifier, exactly as the
struct of lines 162 to 166 declares: it has no base-expression field.
FuncDeclExpr is a FuncDecl used in expression position, its FuncType
inlined. -/
inductive Expr : Type where
  | LiteralValue (tok : Token) : Expr
  | Ident (tok : Token) : Expr
  | UnaryExpr (Operator : Token) (expr : Expr) : Expr
  | BinaryExpr (Operator : Token) (exprL exprR : Expr) : Expr
  | CallExpr (Callee : Expr) (Params : List Expr) : Expr
  | IndexExpr (expr index : Expr) : Expr
  | MemberSelectExpr (Member : Token) : Expr
  | StmtBlockExpr (Stmts : List Stmt) : Expr
  | FuncDeclExpr (Params : List GenDecl) (Results : List Typ)
      (Name : Option Token) (Body : Option Expr) : Expr

/-- The Stmt category, restricted to what the draft parser builds;
nilStmt is the nil Stmt interface value the TODO paths of ExpectStmt
return. -/
inductive Stmt : Type where
  | ReturnStmt (Exprs : List Expr) : Stmt
  | BlockStmt (block : Expr) : Stmt
  | nilStmt : Stmt

end

end ast

namespace parser

/-- The parser over its pre-scanned token stream: tok is p.Token, the
current token, and rest the upcoming tokens (single-token lookahead). -/
structure PState where
  tok : ast.Token
  rest : List ast.Token
deriving DecidableEq, Repr

/-- Parser failures: the UnexpectedNodeError panic with the offending
token and the expected kinds, the EOFError panic from scanning past the
end of the stream, the Go runtime panic of indexing an operator table out
of range, and the embedding's fuel marker (never produced for sufficient
fuel, since every loop of the source consumes input). -/
inductive PErr where
  | UnexpectedNode (Node : ast.Token) (Expect : List Nat)
  | EOF
  | IndexOutOfRange
  | Fuel
deriving DecidableEq, Repr

/-- Scan: advance to the next token; at end of stream the EOFError of the
underlying scanner panics through Scan. -/
def Scan (p : PState) : Except PErr PState :=
  match p.rest with
  | [] => .error .EOF
  | t :: r => .ok ⟨t, r⟩

/-- The loop of MatchTerms (second parser draft, src/parser/parser.go
lines 204 to 213), carrying the full term list for the error payload. -/
def MatchTermsAux (all : List Nat) : List Nat → PState → Except PErr PState
  | [], p => .ok p
  | term :: ts, p =>
    if p.tok.Kind = term then
      match Scan p with
      | .error e => .error e
      | .ok p1 => MatchTermsAux all ts p1
    else .error (.UnexpectedNode p.tok all)

/-- MatchTerms from the second parser draft: each expected term must be
the current token kind, which is then consumed. -/
def MatchTerms (terms : List Nat) (p : PState) : Except PErr PState :=
  MatchTermsAux terms terms p

/-- ExpectIdent (lines 215 to 228): the current token must be IDENT; it
is returned and the parser advances. -/
def ExpectIdent (p : PState) : Except PErr (ast.Token × PState) :=
  if p.tok.Kind = token.IDENT then
    match Scan p with
    | .error e => .error e
    | .ok p1 => .ok (p.tok, p1)
  else .error (.UnexpectedNode p.tok [token.IDENT])

/-- ExpectOperator (lines 389 to 401): the saved current token is
returned after an IsOperator check and a Scan.  Because IsOperator
compares OPERATOR_BEGIN with itself, the check can never pass. -/
def ExpectOperator (p : PState) : Except PErr (ast.Token × PState) :=
  let op := p.tok
  if token.IsOperator p.tok.Kind then
    match Scan p with
    | .error e => .error e
    | .ok p1 => .ok (op, p1)
  else .error (.UnexpectedNode p.tok [token.OPERATOR_BEGIN])

/-- ExpectLiteralValue (lines 403 to 407): wraps the current token
unconditionally and advances. -/
def ExpectLiteralValue (p : PState) : Except PErr (ast.Expr × PState) :=
  match Scan p with
  | .error e => .error e
  | .ok p1 => .ok (.LiteralValue p.tok, p1)

/-- ExpectMemberSelectExpr (lines 426 to 438): consumes the member-select
mark and an identifier and returns a MemberSelectExpr holding ONLY the
member.  The expr argument is dropped, exactly as in the source, where
the parameter goes unused in the returned node. -/
def ExpectMemberSelectExpr (expr : ast.Expr) (p : PState) :
    Except PErr (ast.Expr × PState) :=
  match MatchTerms [token.MEMBER_SELECT] p with
  | .error e => .error e
  | .ok p1 =>
    match ExpectIdent p1 with
    | .error e => .error e
    | .ok (m, p2) => .ok (.MemberSelectExpr m, p2)

/-- ExpectTraitType (lines 349 to 352): the TODO shell, consuming
nothing. -/
def ExpectTraitType (p : PState) : Except PErr (ast.Typ × PState) :=
  .ok (.TraitType, p)

end parser

namespace parser

set_option maxHeartbeats 1600000 in
mutual

/-- ExpectIdentList (lines 230 to 253): one identifier, then as long as a
comma follows, either stop before the terminator or continue. -/
def ExpectIdentList (fuel : Nat) (terminator : Nat) (p : PState) :
    Except PErr (List ast.Token × PState) :=
  if h : fuel = 0 then .error .Fuel
  else
    match ExpectIdent p with
    | .error e => .error e
    | .ok (ident, p1) =>
      if p1.tok.Kind = token.COMMA then
        match Scan p1 with
        | .error e => .error e
        | .ok p2 =>
          if p2.tok.Kind = terminator then .ok ([ident], p2)
          else
            match ExpectIdentList (fuel - 1) terminator p2 with
            | .error e => .error e
            | .ok (rest, p3) => .ok (ident :: rest, p3)
      else .ok ([ident], p1)

/-- ExpectFuncType (lines 256 to 286): a paren-delimited GenDecl list,
then either a paren-delimited type list or a chained FuncType as the
single result type. -/
def ExpectFuncType (fuel : Nat) (p : PState) :
    Except PErr ((List ast.GenDecl × List ast.Typ) × PState) :=
  if h : fuel = 0 then .error .Fuel
  else
    match MatchTerms [token.LPAREN] p with
    | .error e => .error e
    | .ok p1 =>
      match (if p1.tok.Kind = token.IDENT then ExpectGenDeclList (fuel - 1) 0 p1
             else .ok ([], p1)) with
      | .error e => .error e
      | .ok (params, p2) =>
        match MatchTerms [token.RPAREN] p2 with
        | .error e => .error e
        | .ok p3 =>
          if p3.tok.Kind = token.LPAREN then
            match Scan p3 with
            | .error e => .error e
            | .ok p4 =>
              match ExpectTypeList (fuel - 1) token.RPAREN p4 with
              | .error e => .error e
              | .ok (results, p5) =>
                match MatchTerms [token.RPAREN] p5 with
                | .error e => .error e
                | .ok p6 => .ok ((params, results), p6)
          else
            match ExpectFuncType (fuel - 1) p3 with
            | .error e => .error e
            | .ok ((ps2, rs2), p4) => .ok ((params, [ast.Typ.FuncType ps2 rs2]), p4)

/-- ExpectFuncDecl (lines 288 to 315): the fun keyword, an optional name,
a FuncType, and an optional brace-opened body. -/
def ExpectFuncDecl (fuel : Nat) (p : PState) : Except PErr (ast.Expr × PState) :=
  if h : fuel = 0 then .error .Fuel
  else
    match MatchTerms [token.FUNC] p with
    | .error e => .error e
    | .ok p1 =>
      match (if p1.tok.Kind = token.IDENT then
               match ExpectIdent p1 with
               | .error e => .error e
               | .ok (i, p2) => .ok (some i, p2)
             else .ok (none, p1) : Except PErr (Option ast.Token × PState)) with
      | .error e => .error e
      | .ok (nameOpt, p2) =>
        match ExpectFuncType (fuel - 1) p2 with
        | .error e => .error e
        | .ok ((params, results), p3) =>
          if p3.tok.Kind = token.LBRACE then
            match ExpectStmtBlockExpr (fuel - 1) p3 with
            | .error e => .error e
            | .ok (body, p4) =>
              .ok (.FuncDeclExpr params results nameOpt (some body), p4)
          else .ok (.FuncDeclExpr params results nameOpt none, p3)

/-- The field loop of ExpectStructType (lines 323 to 340): stop before a
non-IDENT; a one-identifier list followed by a semicolon is an embedded
field (empty idents, TypeAlias of that identifier), any other identifier
list takes a type and a terminating semicolon. -/
def ExpectStructFields (fuel : Nat) (p : PState) :
    Except PErr (List ast.GenDecl × PState) :=
  if h : fuel = 0 then .error .Fuel
  else
    if p.tok.Kind = token.IDENT then
      match ExpectIdentList (fuel - 1) token.RPAREN p with
      | .error e => .error e
      | .ok (idents, p1) =>
        if p1.tok.Kind = token.SEMICOLON then
          match idents with
          | [ident0] =>
            match Scan p1 with
            | .error e => .error e
            | .ok p2 =>
              match ExpectStructFields (fuel - 1) p2 with
              | .error e => .error e
              | .ok (fields, p3) =>
                .ok (ast.GenDecl.mk [] (.TypeAlias ident0) :: fields, p3)
          | _ => .error (.UnexpectedNode p1.tok [])
        else
          match ExpectType (fuel - 1) p1 with
          | .error e => .error e
          | .ok (typ, p2) =>
            match MatchTerms [token.SEMICOLON] p2 with
            | .error e => .error e
            | .ok p3 =>
              match ExpectStructFields (fuel - 1) p3 with
              | .error e => .error e
              | .ok (fields, p4) => .ok (ast.GenDecl.mk idents typ :: fields, p4)
    else .ok ([], p)

/-- ExpectStructType (lines 317 to 347). -/
def ExpectStructType (fuel : Nat) (p : PState) : Except PErr (ast.Typ × PState) :=
  if h : fuel = 0 then .error .Fuel
  else
    match MatchTerms [token.STRUCT, token.LBRACE] p with
    | .error e => .error e
    | .ok p1 =>
      match ExpectStructFields (fuel - 1) p1 with
      | .error e => .error e
      | .ok (fields, p2) =>
        match MatchTerms [token.RBRACE] p2 with
        | .error e => .error e
        | .ok p3 => .ok (.StructType fields, p3)

/-- ExpectType (lines 354 to 370): fun, struct, trait or a bare
identifier. -/
def ExpectType (fuel : Nat) (p : PState) : Except PErr (ast.Typ × PState) :=
  if h : fuel = 0 then .error .Fuel
  else
    if p.tok.Kind = token.FUNC then
      match Scan p with
      | .error e => .error e
      | .ok p1 =>
        match ExpectFuncType (fuel - 1) p1 with
        | .error e => .error e
        | .ok ((ps, rs), p2) => .ok (.FuncType ps rs, p2)
    else if p.tok.Kind = token.STRUCT then ExpectStructType (fuel - 1) p
    else if p.tok.Kind = token.TRAIT then ExpectTraitType p
    else if p.tok.Kind = token.IDENT then
      match ExpectIdent p with
      | .error e => .error e
      | .ok (i, p1) => .ok (.TypeAlias i, p1)
    else .error (.UnexpectedNode p.tok [token.STRUCT, token.TRAIT, token.IDENT])

/-- ExpectTypeList (lines 372 to 387): types separated by commas; both
exits of the source return after a non-comma (the terminator test is
redundant there), and a comma always continues. -/
def ExpectTypeList (fuel : Nat) (terminator : Nat) (p : PState) :
    Except PErr (List ast.Typ × PState) :=
  if h : fuel = 0 then .error .Fuel
  else
    match ExpectType (fuel - 1) p with
    | .error e => .error e
    | .ok (t, p1) =>
      if p1.tok.Kind ≠ token.COMMA then .ok ([t], p1)
      else
        match Scan p1 with
        | .error e => .error e
        | .ok p2 =>
          match ExpectTypeList (fuel - 1) terminator p2 with
          | .error e => .error e
          | .ok (ts, p3) => .ok (t :: ts, p3)

/-- ExpectGenDecl (lines 615 to 628): an identifier list and a type. -/
def ExpectGenDecl (fuel : Nat) (p : PState) : Except PErr (ast.GenDecl × PState) :=
  if h : fuel = 0 then .error .Fuel
  else
    match ExpectIdentList (fuel - 1) 0 p with
    | .error e => .error e
    | .ok (idents, p1) =>
      match ExpectType (fuel - 1) p1 with
      | .error e => .error e
      | .ok (typ, p2) => .ok (ast.GenDecl.mk idents typ, p2)

/-- ExpectGenDeclList (lines 650 to 667). -/
def ExpectGenDeclList (fuel : Nat) (terminator : Nat) (p : PState) :
    Except PErr (List ast.GenDecl × PState) :=
  if h : fuel = 0 then .error .Fuel
  else
    match ExpectGenDecl (fuel - 1) p with
    | .error e => .error e
    | .ok (g, p1) =>
      if p1.tok.Kind = token.COMMA then
        match Scan p1 with
        | .error e => .error e
        | .ok p2 =>
          if p2.tok.Kind = terminator then .ok ([g], p2)
          else
            match ExpectGenDeclList (fuel - 1) terminator p2 with
            | .error e => .error e
            | .ok (gs, p3) => .ok (g :: gs, p3)
      else .ok ([g], p1)

/-- ExpectIndexExpr (lines 409 to 424). -/
def ExpectIndexExpr (fuel : Nat) (expr : ast.Expr) (p : PState) :
    Except PErr (ast.Expr × PState) :=
  if h : fuel = 0 then .error .Fuel
  else
    match MatchTerms [token.LBRACK] p with
    | .error e => .error e
    | .ok p1 =>
      match ExpectExpr (fuel - 1) p1 with
      | .error e => .error e
      | .ok (idx, p2) =>
        match MatchTerms [token.RBRACK] p2 with
        | .error e => .error e
        | .ok p3 => .ok (.IndexExpr expr idx, p3)

/-- ExpectCallExpr (lines 440 to 456). -/
def ExpectCallExpr (fuel : Nat) (callee : ast.Expr) (p : PState) :
    Except PErr (ast.Expr × PState) :=
  if h : fuel = 0 then .error .Fuel
  else
    match MatchTerms [token.LPAREN] p with
    | .error e => .error e
    | .ok p1 =>
      match ExpectExprList (fuel - 1) token.RPAREN p1 with
      | .error e => .error e
      | .ok (params, p2) =>
        match MatchTerms [token.RPAREN] p2 with
        | .error e => .error e
        | .ok p3 => .ok (.CallExpr callee params, p3)

/-- LookAheadLeftAssociativeOperatorAndExpr (lines 459 to 489): extend
the expression while the current token is a member select, an index, a
call or a postfix unary operator; a nil extension returns the expression
as is. -/
def LookAheadLeftAssociativeOperatorAndExpr (fuel : Nat) (expr : ast.Expr)
    (p : PState) : Except PErr (ast.Expr × PState) :=
  if h : fuel = 0 then .error .Fuel
  else
    match (if p.tok.Kind = token.MEMBER_SELECT then
             match ExpectMemberSelectExpr expr p with
             | .error e => .error e
             | .ok (e2, p1) => .ok (some e2, p1)
           else if p.tok.Kind = token.LBRACK then
             match ExpectIndexExpr (fuel - 1) expr p with
             | .error e => .error e
             | .ok (e2, p1) => .ok (some e2, p1)
           else if p.tok.Kind = token.LPAREN then
             match ExpectCallExpr (fuel - 1) expr p with
             | .error e => .error e
             | .ok (e2, p1) => .ok (some e2, p1)
           else
             match token.PostfixUnaryOperators p.tok.Kind with
             | none => .error .IndexOutOfRange
             | some b =>
               if b then
                 match ExpectOperator p with
                 | .error e => .error e
                 | .ok (op, p1) => .ok (some (.UnaryExpr op expr), p1)
               else .ok (none, p) : Except PErr (Option ast.Expr × PState)) with
    | .error e => .error e
    | .ok (none, p1) => .ok (expr, p1)
    | .ok (some e2, p1) =>
      LookAheadLeftAssociativeOperatorAndExpr (fuel - 1) e2 p1

/-- ExpectLeftAssociativeExpr (lines 491 to 519): a literal, an
identifier, a fun declaration or a parenthesized expression, then the
left-associative suffix chain (whose result is never nil). -/
def ExpectLeftAssociativeExpr (fuel : Nat) (p : PState) :
    Except PErr (ast.Expr × PState) :=
  if h : fuel = 0 then .error .Fuel
  else
    match (if token.IsLiteralValue p.tok.Kind then ExpectLiteralValue p
           else if p.tok.Kind = token.IDENT then
             match ExpectIdent p with
             | .error e => .error e
             | .ok (i, p1) => .ok (.Ident i, p1)
           else if p.tok.Kind = token.FUNC then ExpectFuncDecl (fuel - 1) p
           else if p.tok.Kind = token.LPAREN then
             match Scan p with
             | .error e => .error e
             | .ok p1 =>
               match ExpectExpr (fuel - 1) p1 with
               | .error e => .error e
               | .ok (e2, p2) =>
                 match MatchTerms [token.RPAREN] p2 with
                 | .error e => .error e
                 | .ok p3 => .ok (e2, p3)
           else .error (.UnexpectedNode p.tok []) :
           Except PErr (ast.Expr × PState)) with
    | .error e => .error e
    | .ok (expr, p1) =>
      LookAheadLeftAssociativeOperatorAndExpr (fuel - 1) expr p1

/-- ExpectPrefixUnaryExpr (lines 521 to 532). -/
def ExpectPrefixUnaryExpr (fuel : Nat) (p : PState) :
    Except PErr (ast.Expr × PState) :=
  if h : fuel = 0 then .error .Fuel
  else
    match ExpectOperator p with
    | .error e => .error e
    | .ok (op, p1) =>
      match ExpectLeftAssociativeExpr (fuel - 1) p1 with
      | .error e => .error e
      | .ok (e2, p2) => .ok (.UnaryExpr op e2, p2)

/-- ExpectShortExpr (lines 534 to 540): a prefix unary operator enters
the unary production, anything else the left-associative one. -/
def ExpectShortExpr (fuel : Nat) (p : PState) : Except PErr (ast.Expr × PState) :=
  if h : fuel = 0 then .error .Fuel
  else
    match token.PrefixUnaryOperators p.tok.Kind with
    | none => .error .IndexOutOfRange
    | some b =>
      if b then ExpectPrefixUnaryExpr (fuel - 1) p
      else ExpectLeftAssociativeExpr (fuel - 1) p

/-- ExpectBinaryExpr (lines 543 to 558): operator, right operand, then
left-associative chaining while the BinaryOperators array entry at the
current kind is nonzero (an out-of-range kind is a runtime panic). -/
def ExpectBinaryExpr (fuel : Nat) (exprL : ast.Expr) (p : PState) :
    Except PErr (ast.Expr × PState) :=
  if h : fuel = 0 then .error .Fuel
  else
    match ExpectOperator p with
    | .error e => .error e
    | .ok (op, p1) =>
      match ExpectShortExpr (fuel - 1) p1 with
      | .error e => .error e
      | .ok (exprR, p2) =>
        match token.BinaryOperators p2.tok.Kind with
        | none => .error .IndexOutOfRange
        | some v =>
          if v ≠ 0 then ExpectBinaryExpr (fuel - 1) (.BinaryExpr op exprL exprR) p2
          else .ok (.BinaryExpr op exprL exprR, p2)

/-- ExpectExpr (lines 560 to 566): a short expression, then the binary
production when the BinaryOperators array entry at the current kind is
nonzero (an out-of-range kind is a runtime panic). -/
def ExpectExpr (fuel : Nat) (p : PState) : Except PErr (ast.Expr × PState) :=
  if h : fuel = 0 then .error .Fuel
  else
    match ExpectShortExpr (fuel - 1) p with
    | .error e => .error e
    | .ok (expr, p1) =>
      match token.BinaryOperators p1.tok.Kind with
      | none => .error .IndexOutOfRange
      | some v =>
        if v ≠ 0 then ExpectBinaryExpr (fuel - 1) expr p1
        else .ok (expr, p1)

/-- ExpectExprList (lines 568 to 586). -/
def ExpectExprList (fuel : Nat) (terminator : Nat) (p : PState) :
    Except PErr (List ast.Expr × PState) :=
  if h : fuel = 0 then .error .Fuel
  else
    if p.tok.Kind = token.COMMA then
      match Scan p with
      | .error e => .error e
      | .ok p1 =>
        if p1.tok.Kind = terminator then .ok ([], p1)
        else ExpectExprList (fuel - 1) terminator p1
    else if p.tok.Kind = terminator then .ok ([], p)
    else
      match ExpectExpr (fuel - 1) p with
      | .error e => .error e
      | .ok (e2, p1) =>
        match ExpectExprList (fuel - 1) terminator p1 with
        | .error e => .error e
        | .ok (es, p2) => .ok (e2 :: es, p2)

/-- The statement loop of ExpectStmtBlockExpr (lines 679 to 681): collect
statements until the current token is the closing brace (which the
source does NOT consume). -/
def ExpectStmtBlockLoop (fuel : Nat) (p : PState) :
    Except PErr (List ast.Stmt × PState) :=
  if h : fuel = 0 then .error .Fuel
  else
    if p.tok.Kind = token.RBRACE then .ok ([], p)
    else
      match ExpectStmt (fuel - 1) p with
      | .error e => .error e
      | .ok (st, p1) =>
        match ExpectStmtBlockLoop (fuel - 1) p1 with
        | .error e => .error e
        | .ok (sts, p2) => .ok (st :: sts, p2)

/-- ExpectStmtBlockExpr (lines 669 to 686). -/
def ExpectStmtBlockExpr (fuel : Nat) (p : PState) :
    Except PErr (ast.Expr × PState) :=
  if h : fuel = 0 then .error .Fuel
  else
    match MatchTerms [token.LBRACE] p with
    | .error e => .error e
    | .ok p1 =>
      match ExpectStmtBlockLoop (fuel - 1) p1 with
      | .error e => .error e
      | .ok (stmts, p2) => .ok (.StmtBlockExpr stmts, p2)

/-- ExpectReturnStmt (lines 688 to 701). -/
def ExpectReturnStmt (fuel : Nat) (p : PState) : Except PErr (ast.Stmt × PState) :=
  if h : fuel = 0 then .error .Fuel
  else
    match MatchTerms [token.RETURN] p with
    | .error e => .error e
    | .ok p1 =>
      match ExpectExprList (fuel - 1) 0 p1 with
      | .error e => .error e
      | .ok (es, p2) => .ok (.ReturnStmt es, p2)

/-- ExpectStmt (lines 710 to 729): a brace opens a statement block; the
RETURN case runs ExpectReturnStmt but the source discards its result and
falls through to return nil; the IDENT, VAR, VAL, CONTINUE and BREAK
cases are empty and the default also returns nil without consuming
anything (token.VAL is not even declared in src/token/token.go). -/
def ExpectStmt (fuel : Nat) (p : PState) : Except PErr (ast.Stmt × PState) :=
  if h : fuel = 0 then .error .Fuel
  else
    if p.tok.Kind = token.LBRACE then
      match ExpectStmtBlockExpr (fuel - 1) p with
      | .error e => .error e
      | .ok (b, p1) => .ok (.BlockStmt b, p1)
    else if p.tok.Kind = token.RETURN then
      match ExpectReturnStmt (fuel - 1) p with
      | .error e => .error e
      | .ok (_, p1) => .ok (.nilStmt, p1)
    else .ok (.nilStmt, p)

end

end parser

/-- Helper: IsOperator can never hold, since both bounds of its range
check are OPERATOR_BEGIN. -/
theorem token_IsOperator_eq_false (k : Nat) : token.IsOperator k = false := by
  unfold token.IsOperator token.OPERATOR_BEGIN
  by_cases h : 10 < k
  · have h2 : ¬ k < 10 := by omega
    simp [h, h2]
  · simp [h]

/-- C10: for every token kind IsOperator returns false (its range check
compares OPERATOR_BEGIN against itself), so ExpectOperator fails with an
UnexpectedNodeError whatever the current token is, and no operator token
is ever successfully consumed through it.  Confirmed against
src/token/token.go line 241 and src/parser/parser.go lines 389 to 401. -/
theorem C10_expect_operator_always_fails (k : Nat) (p : parser.PState) :
    token.IsOperator k = false ∧
    parser.ExpectOperator p = .error (.UnexpectedNode p.tok [token.OPERATOR_BEGIN]) := by
  refine ⟨token_IsOperator_eq_false k, ?_⟩
  simp [parser.ExpectOperator, token_IsOperator_eq_false p.tok.Kind]

/-- C3: evaluating the expression parser at the claim's own input.  After
the first operand identA is parsed, the current token is the star, and
ExpectExpr indexes the eight-element positional BinaryOperators array
with the token kind MUL (13): a Go runtime index-out-of-range panic, so
no BinaryExpr (let alone the claimed left-associative tree) is ever
built.  Even for an in-range kind the chain could not form, since
ExpectOperator always panics (IsOperator is constantly false). -/
theorem C3_uniform_precedence_input_panics :
    parser.ExpectExpr 64
      ⟨⟨token.IDENT, "identA"⟩,
       [⟨token.MUL, "*"⟩, ⟨token.IDENT, "identC"⟩, ⟨token.ADD, "+"⟩,
        ⟨token.IDENT, "identB"⟩, ⟨token.MUL, "*"⟩, ⟨token.IDENT, "identC"⟩,
        ⟨token.MUL, "*"⟩, ⟨token.LPAREN, "("⟩, ⟨token.IDENT, "identA"⟩,
        ⟨token.ADD, "+"⟩, ⟨token.IDENT, "identB"⟩, ⟨token.RPAREN, ")"⟩]⟩ =
      .error .IndexOutOfRange ∧
    token.BinaryOperators token.MUL = none := by
  constructor
  · simp [parser.ExpectExpr, parser.ExpectShortExpr, parser.ExpectLeftAssociativeExpr,
      parser.LookAheadLeftAssociativeOperatorAndExpr, parser.ExpectIdent,
      parser.ExpectLiteralValue, parser.Scan, parser.MatchTerms, parser.MatchTermsAux,
      token.PrefixUnaryOperators, token.PostfixUnaryOperators, token.BinaryOperators,
      token.IsLiteralValue, token.IDENT, token.MUL, token.ADD, token.LPAREN,
      token.RPAREN, token.LITERAL_BEGIN, token.LITERAL_END, token.MEMBER_SELECT,
      token.LBRACK, token.FUNC, token.token_end, token.INC, token.DEC, token.AND,
      token.QUO, token.REM, token.SUB, token.SHL, token.SHR, List.get?]
  · rfl

/-- C4: evaluating the parser at the claim's input.  The suffix chain of
base.A.B parses to a MemberSelectExpr that holds ONLY the member token B;
the node type of src/ast/node.go lines 162 to 166 has no base-expression
field and ExpectMemberSelectExpr drops its expr argument, so the chain
MemberSelectExpr(MemberSelectExpr(Ident(base), A), B) the claim requires
is not retained.  The full expression then panics before any BinaryExpr
for the plus can be built, because ExpectExpr indexes the eight-element
BinaryOperators array with the kind ADD (11). -/
theorem C4_member_select_drops_base :
    parser.ExpectLeftAssociativeExpr 64
      ⟨⟨token.IDENT, "base"⟩,
       [⟨token.MEMBER_SELECT, "."⟩, ⟨token.IDENT, "A"⟩, ⟨token.MEMBER_SELECT, "."⟩,
        ⟨token.IDENT, "B"⟩, ⟨token.ADD, "+"⟩, ⟨token.INT, "1"⟩]⟩ =
      .ok (.MemberSelectExpr ⟨token.IDENT, "B"⟩,
           ⟨⟨token.ADD, "+"⟩, [⟨token.INT, "1"⟩]⟩) ∧
    parser.ExpectExpr 64
      ⟨⟨token.IDENT, "base"⟩,
       [⟨token.MEMBER_SELECT, "."⟩, ⟨token.IDENT, "A"⟩, ⟨token.MEMBER_SELECT, "."⟩,
        ⟨token.IDENT, "B"⟩, ⟨token.ADD, "+"⟩, ⟨token.INT, "1"⟩]⟩ =
      .error .IndexOutOfRange := by
  constructor
  · simp [parser.ExpectLeftAssociativeExpr,
      parser.LookAheadLeftAssociativeOperatorAndExpr, parser.ExpectIdent,
      parser.ExpectMemberSelectExpr, parser.ExpectLiteralValue, parser.Scan,
      parser.MatchTerms, parser.MatchTermsAux,
      token.PrefixUnaryOperators, token.PostfixUnaryOperators, token.BinaryOperators,
      token.IsLiteralValue, token.IDENT, token.MUL, token.ADD, token.LPAREN,
      token.RPAREN, token.LITERAL_BEGIN, token.LITERAL_END, token.MEMBER_SELECT,
      token.LBRACK, token.FUNC, token.token_end, token.INC, token.DEC, token.AND,
      token.INT, List.get?]
  · simp [parser.ExpectExpr, parser.ExpectShortExpr, parser.ExpectLeftAssociativeExpr,
      parser.LookAheadLeftAssociativeOperatorAndExpr, parser.ExpectIdent,
      parser.ExpectMemberSelectExpr, parser.ExpectLiteralValue, parser.Scan,
      parser.MatchTerms, parser.MatchTermsAux,
      token.PrefixUnaryOperators, token.PostfixUnaryOperators, token.BinaryOperators,
      token.IsLiteralValue, token.IDENT, token.MUL, token.ADD, token.LPAREN,
      token.RPAREN, token.LITERAL_BEGIN, token.LITERAL_END, token.MEMBER_SELECT,
      token.LBRACK, token.FUNC, token.token_end, token.INC, token.DEC, token.AND,
      token.INT, token.QUO, token.REM, token.SUB, token.SHL, token.SHR, List.get?]
